import Mathlib

/-!
Shallow embedding of the Azure Blob exporter of the otel-trust-gateway
repository (package `azureblobexporter`: `config.go`, `exporter.go` and the
parquet marshaller), together with theorems settling the specification
claims about it.  Go slices become `List`, Go maps with unique keys become
association lists, fallible code returns `Except String`, and a Go runtime
panic is modelled as an `Except.error`.
-/

namespace AzureBlob

/-! ## Attribute values (`pcommon.Value` / `pcommon.Map`)

Attribute values carry strings, 64-bit integers and booleans; the claims
under verification never perform arithmetic on attribute values, so the
floating-point and composite variants of `pcommon.Value` are not needed and
are omitted from the model. `asString` mirrors `pcommon.Value.AsString`. -/

inductive AttrValue where
  | str (s : String)
  | intV (i : Int)
  | boolV (b : Bool)
  deriving DecidableEq, Repr

def AttrValue.asString : AttrValue → String
  | .str s => s
  | .intV i => toString i
  | .boolV b => if b then "true" else "false"

/-- `pcommon.Map`: an attribute mapping with unique keys, in iteration
order. -/
structure AttrMap where
  pairs : List (String × AttrValue)
  deriving DecidableEq, Repr

/-- `pcommon.Map.Get`: first entry with the given key, `none` if absent. -/
def AttrMap.get (m : AttrMap) (key : String) : Option AttrValue :=
  m.pairs.lookup key

def emptyAttrMap : AttrMap := ⟨[]⟩

/-! ## Telemetry batches (`ptrace.Traces`, `plog.Logs`, `pmetric.Metrics`)

Trace/span/parent-span identifiers are fixed-width byte strings
(`pcommon.TraceID` / `pcommon.SpanID`), modelled as lists of byte values;
`IsEmpty` is the all-zero test and `String()` is lowercase hex encoding. -/

def idIsEmpty (id : List Nat) : Bool := id.all (· == 0)

def hexDigit (n : Nat) : Char :=
  if n < 10 then Char.ofNat (48 + n) else Char.ofNat (87 + n)

def hexOfBytes (id : List Nat) : String :=
  ⟨(id.map fun b => [hexDigit (b / 16 % 16), hexDigit (b % 16)]).flatten⟩

structure Resource where
  attributes : AttrMap
  deriving DecidableEq, Repr

structure InstrumentationScope where
  name : String
  version : String
  attributes : AttrMap
  deriving DecidableEq, Repr

structure SpanStatus where
  code : Int
  message : String
  deriving DecidableEq, Repr

structure Span where
  traceID : List Nat
  spanID : List Nat
  parentSpanID : List Nat
  name : String
  kind : Int
  startTimestamp : Int
  endTimestamp : Int
  status : SpanStatus
  attributes : AttrMap
  deriving DecidableEq, Repr

/-- The zero value `ptrace.Span{}`. -/
def emptySpan : Span :=
  { traceID := [], spanID := [], parentSpanID := [], name := "", kind := 0,
    startTimestamp := 0, endTimestamp := 0,
    status := { code := 0, message := "" }, attributes := emptyAttrMap }

structure ScopeSpans where
  scope : InstrumentationScope
  spans : List Span
  deriving DecidableEq, Repr

structure ResourceSpans where
  resource : Resource
  scopeSpans : List ScopeSpans
  deriving DecidableEq, Repr

structure Traces where
  resourceSpans : List ResourceSpans
  deriving DecidableEq, Repr

structure LogRecord where
  timestamp : Int
  observedTimestamp : Int
  severityNumber : Int
  severityText : String
  body : AttrValue
  traceID : List Nat
  spanID : List Nat
  flags : Nat
  attributes : AttrMap
  deriving DecidableEq, Repr

/-- The zero value `plog.LogRecord{}`. -/
def emptyLogRecord : LogRecord :=
  { timestamp := 0, observedTimestamp := 0, severityNumber := 0,
    severityText := "", body := .str "", traceID := [], spanID := [],
    flags := 0, attributes := emptyAttrMap }

structure ScopeLogs where
  scope : InstrumentationScope
  logRecords : List LogRecord
  deriving DecidableEq, Repr

structure ResourceLogs where
  resource : Resource
  scopeLogs : List ScopeLogs
  deriving DecidableEq, Repr

structure Logs where
  resourceLogs : List ResourceLogs
  deriving DecidableEq, Repr

/-! Metric data.  Floating-point values (`float64` in Go) are carried through
the marshaller unchanged and never computed with, so a double is modelled
opaquely by its bit payload. -/

def Float64 : Type := Nat

instance : DecidableEq Float64 := fun (a b : Nat) => Nat.decEq a b
instance : Repr Float64 := ⟨fun (n : Nat) p => reprPrec n p⟩

inductive NumberValue where
  | empty
  | intV (i : Int)
  | doubleV (d : Float64)
  deriving DecidableEq, Repr

structure NumberDataPoint where
  timestamp : Int
  startTimestamp : Int
  value : NumberValue
  attributes : AttrMap
  deriving DecidableEq, Repr

/-- Histogram / exponential-histogram / summary data points as read by the
marshaller: only timestamp, start timestamp, sum and attributes are used. -/
structure SumDataPoint where
  timestamp : Int
  startTimestamp : Int
  sum : Float64
  attributes : AttrMap
  deriving DecidableEq, Repr

inductive Temporality where
  | unspecified
  | delta
  | cumulative
  deriving DecidableEq, Repr

inductive MetricData where
  | gauge (dps : List NumberDataPoint)
  | sum (temporality : Temporality) (isMonotonic : Bool) (dps : List NumberDataPoint)
  | histogram (temporality : Temporality) (dps : List SumDataPoint)
  | expHistogram (temporality : Temporality) (dps : List SumDataPoint)
  | summary (dps : List SumDataPoint)
  | empty
  deriving DecidableEq, Repr

structure Metric where
  name : String
  description : String
  unit : String
  data : MetricData
  deriving DecidableEq, Repr

/-- The zero value `pmetric.Metric{}` (type `MetricTypeEmpty`). -/
def emptyMetric : Metric :=
  { name := "", description := "", unit := "", data := .empty }

structure ScopeMetrics where
  scope : InstrumentationScope
  metrics : List Metric
  deriving DecidableEq, Repr

structure ResourceMetrics where
  resource : Resource
  scopeMetrics : List ScopeMetrics
  deriving DecidableEq, Repr

structure Metrics where
  resourceMetrics : List ResourceMetrics
  deriving DecidableEq, Repr

/-! ## Record counts -/

def spanCount (td : Traces) : Nat :=
  (td.resourceSpans.map fun rs =>
    (rs.scopeSpans.map fun ss => ss.spans.length).sum).sum

def logRecordCount (ld : Logs) : Nat :=
  (ld.resourceLogs.map fun rl =>
    (rl.scopeLogs.map fun sl => sl.logRecords.length).sum).sum

/-- Number of metric data points of one metric (per point, not per metric). -/
def Metric.dataPointCount (m : Metric) : Nat :=
  match m.data with
  | .gauge dps => dps.length
  | .sum _ _ dps => dps.length
  | .histogram _ dps => dps.length
  | .expHistogram _ dps => dps.length
  | .summary dps => dps.length
  | .empty => 0

def metricPointCount (md : Metrics) : Nat :=
  (md.resourceMetrics.map fun rm =>
    (rm.scopeMetrics.map fun sm =>
      (sm.metrics.map Metric.dataPointCount).sum).sum).sum

/-! ## Parquet rows and the columnar marshaller

Embedding of the parquet marshaller source file (`parquetMarshaller`,
`attributesToMap`, the `extract*Metrics` helpers and `marshalToParquet`).
Row field order and values follow the Go structs `ParquetSpan`,
`ParquetLog`, `ParquetMetric`. -/

structure ParquetSpan where
  traceID : String
  spanID : String
  parentSpanID : String
  name : String
  kind : Int
  startTimeUnixNano : Int
  endTimeUnixNano : Int
  statusCode : Int
  statusMessage : String
  resourceAttributes : List (String × String)
  spanAttributes : List (String × String)
  scopeName : String
  scopeVersion : String
  deriving DecidableEq, Repr

structure ParquetLog where
  timestamp : Int
  observedTimestamp : Int
  severityNumber : Int
  severityText : String
  body : String
  traceID : String
  spanID : String
  flags : Nat
  resourceAttributes : List (String × String)
  logAttributes : List (String × String)
  scopeName : String
  scopeVersion : String
  deriving DecidableEq, Repr

structure ParquetMetric where
  name : String
  description : String
  unit : String
  type : String
  timeUnixNano : Int
  valueType : String
  intValue : Int
  doubleValue : Float64
  resourceAttributes : List (String × String)
  metricAttributes : List (String × String)
  scopeName : String
  scopeVersion : String
  isMonotonic : Bool
  aggregationTemporality : String
  startTimeUnixNano : Int
  deriving DecidableEq, Repr

/-- `attributesToMap`: flattens a `pcommon.Map` into a string-to-string
mapping, coercing each value with `AsString`. -/
def attributesToMap (attrs : AttrMap) : List (String × String) :=
  attrs.pairs.map fun p => (p.1, p.2.asString)

/-- Row built by the loop body of `parquetMarshaller.MarshalTraces`. -/
def spanRow (resourceAttrs : List (String × String)) (scopeName scopeVersion : String)
    (span : Span) : ParquetSpan :=
  { traceID := hexOfBytes span.traceID
    spanID := hexOfBytes span.spanID
    parentSpanID := if idIsEmpty span.parentSpanID then "" else hexOfBytes span.parentSpanID
    name := span.name
    kind := span.kind
    startTimeUnixNano := span.startTimestamp
    endTimeUnixNano := span.endTimestamp
    statusCode := span.status.code
    statusMessage := span.status.message
    resourceAttributes := resourceAttrs
    spanAttributes := attributesToMap span.attributes
    scopeName := scopeName
    scopeVersion := scopeVersion }

/-- The nested loops of `parquetMarshaller.MarshalTraces`, collecting one
row per span in iteration order. -/
def flattenSpans (td : Traces) : List ParquetSpan :=
  (td.resourceSpans.map fun rs =>
    (rs.scopeSpans.map fun ss =>
      ss.spans.map (spanRow (attributesToMap rs.resource.attributes)
        ss.scope.name ss.scope.version)).flatten).flatten

/-- Row built by the loop body of `parquetMarshaller.MarshalLogs`. -/
def logRow (resourceAttrs : List (String × String)) (scopeName scopeVersion : String)
    (lr : LogRecord) : ParquetLog :=
  { timestamp := lr.timestamp
    observedTimestamp := lr.observedTimestamp
    severityNumber := lr.severityNumber
    severityText := lr.severityText
    body := lr.body.asString
    traceID := if idIsEmpty lr.traceID then "" else hexOfBytes lr.traceID
    spanID := if idIsEmpty lr.spanID then "" else hexOfBytes lr.spanID
    flags := lr.flags
    resourceAttributes := resourceAttrs
    logAttributes := attributesToMap lr.attributes
    scopeName := scopeName
    scopeVersion := scopeVersion }

def flattenLogRecords (ld : Logs) : List ParquetLog :=
  (ld.resourceLogs.map fun rl =>
    (rl.scopeLogs.map fun sl =>
      sl.logRecords.map (logRow (attributesToMap rl.resource.attributes)
        sl.scope.name sl.scope.version)).flatten).flatten

def temporalityString : Temporality → String
  | .delta => "delta"
  | .cumulative => "cumulative"
  | .unspecified => "unspecified"

/-- `extractGaugeMetrics`: one row per gauge data point. -/
def extractGaugeMetrics (m : Metric) (dps : List NumberDataPoint)
    (resourceAttrs : List (String × String)) (scopeName scopeVersion : String) :
    List ParquetMetric :=
  dps.map fun dp =>
    { name := m.name, description := m.description, unit := m.unit
      type := "gauge"
      timeUnixNano := dp.timestamp
      valueType := match dp.value with
        | .intV _ => "int" | .doubleV _ => "double" | .empty => ""
      intValue := match dp.value with | .intV i => i | _ => 0
      doubleValue := match dp.value with | .doubleV d => d | _ => (0 : Nat)
      resourceAttributes := resourceAttrs
      metricAttributes := attributesToMap dp.attributes
      scopeName := scopeName, scopeVersion := scopeVersion
      isMonotonic := false, aggregationTemporality := ""
      startTimeUnixNano := 0 }

/-- `extractSumMetrics`: one row per sum data point. -/
def extractSumMetrics (m : Metric) (temporality : Temporality) (isMonotonic : Bool)
    (dps : List NumberDataPoint) (resourceAttrs : List (String × String))
    (scopeName scopeVersion : String) : List ParquetMetric :=
  dps.map fun dp =>
    { name := m.name, description := m.description, unit := m.unit
      type := "sum"
      timeUnixNano := dp.timestamp
      startTimeUnixNano := dp.startTimestamp
      valueType := match dp.value with
        | .intV _ => "int" | .doubleV _ => "double" | .empty => ""
      intValue := match dp.value with | .intV i => i | _ => 0
      doubleValue := match dp.value with | .doubleV d => d | _ => (0 : Nat)
      resourceAttributes := resourceAttrs
      metricAttributes := attributesToMap dp.attributes
      scopeName := scopeName, scopeVersion := scopeVersion
      isMonotonic := isMonotonic
      aggregationTemporality := temporalityString temporality }

/-- `extractHistogramMetrics` / `extractExponentialHistogramMetrics` /
`extractSummaryMetrics`: one row per data point, the declared sum used as
the representative double value.  The three differ only in the `type` tag
and in whether temporality is recorded. -/
def extractSumValuedMetrics (m : Metric) (typeTag : String)
    (aggregationTemporality : String) (dps : List SumDataPoint)
    (resourceAttrs : List (String × String)) (scopeName scopeVersion : String) :
    List ParquetMetric :=
  dps.map fun dp =>
    { name := m.name, description := m.description, unit := m.unit
      type := typeTag
      timeUnixNano := dp.timestamp
      startTimeUnixNano := dp.startTimestamp
      valueType := "double"
      intValue := 0
      doubleValue := dp.sum
      resourceAttributes := resourceAttrs
      metricAttributes := attributesToMap dp.attributes
      scopeName := scopeName, scopeVersion := scopeVersion
      isMonotonic := false
      aggregationTemporality := aggregationTemporality }

/-- The `switch metric.Type()` in `parquetMarshaller.MarshalMetrics`; a
metric of type `Empty` matches no case and contributes no rows. -/
def metricRows (resourceAttrs : List (String × String)) (scopeName scopeVersion : String)
    (m : Metric) : List ParquetMetric :=
  match m.data with
  | .gauge dps => extractGaugeMetrics m dps resourceAttrs scopeName scopeVersion
  | .sum temporality isMonotonic dps =>
      extractSumMetrics m temporality isMonotonic dps resourceAttrs scopeName scopeVersion
  | .histogram temporality dps =>
      extractSumValuedMetrics m "histogram" (temporalityString temporality) dps
        resourceAttrs scopeName scopeVersion
  | .summary dps =>
      extractSumValuedMetrics m "summary" "" dps resourceAttrs scopeName scopeVersion
  | .expHistogram temporality dps =>
      extractSumValuedMetrics m "exponential_histogram" (temporalityString temporality)
        dps resourceAttrs scopeName scopeVersion
  | .empty => []

def flattenMetricPoints (md : Metrics) : List ParquetMetric :=
  (md.resourceMetrics.map fun rm =>
    (rm.scopeMetrics.map fun sm =>
      (sm.metrics.map (metricRows (attributesToMap rm.resource.attributes)
        sm.scope.name sm.scope.version)).flatten).flatten).flatten

/-- `marshalToParquet`: for zero rows it returns an empty payload without
invoking the writer; otherwise it encodes the rows.  The external
`parquet-go` writer (row encoding plus Snappy block compression) is
abstracted as the identity on the row sequence: the payload is modelled by
the rows it encodes, and the writer's I/O errors cannot occur on an
in-memory buffer. -/
def marshalToParquet {T : Type} (rows : List T) : Except String (List T) :=
  if rows.isEmpty then .ok [] else .ok rows

/-! ## The three marshallers and `newMarshaller`

The payload of a marshal call, tagged by format.  The structured-text
(json) and compact-binary (proto) marshaller implementations are not part
of this repository's sources (only their constructors are referenced from
`newMarshaller`); they are modelled from the spec below. -/

inductive Payload where
  | jsonTraces (td : Traces)
  | jsonLogs (ld : Logs)
  | jsonMetrics (md : Metrics)
  | protoTraces (td : Traces)
  | protoLogs (ld : Logs)
  | protoMetrics (md : Metrics)
  | parquetSpanRows (rows : List ParquetSpan)
  | parquetLogRows (rows : List ParquetLog)
  | parquetMetricRows (rows : List ParquetMetric)
  deriving DecidableEq, Repr

/-- Number of leaf records represented by a payload: for the lossless
json/proto encodings the record count of the encoded batch, for the
columnar encoding the number of rows. -/
def payloadRecordCount : Payload → Nat
  | .jsonTraces td => spanCount td
  | .jsonLogs ld => logRecordCount ld
  | .jsonMetrics md => metricPointCount md
  | .protoTraces td => spanCount td
  | .protoLogs ld => logRecordCount ld
  | .protoMetrics md => metricPointCount md
  | .parquetSpanRows rows => rows.length
  | .parquetLogRows rows => rows.length
  | .parquetMetricRows rows => rows.length

structure Marshaller where
  marshalTraces : Traces → Except String Payload
  marshalLogs : Logs → Except String Payload
  marshalMetrics : Metrics → Except String Payload

/-- Modelled from the spec: the structured-text marshaller (constructor
`newJSONMarshaller`, implementation absent from the sources) "serializes
the full hierarchy (resource → scope → records) losslessly"; the payload is
the batch itself under a json tag, and no batch is rejected. -/
def newJSONMarshaller : Marshaller :=
  { marshalTraces := fun td => .ok (.jsonTraces td)
    marshalLogs := fun ld => .ok (.jsonLogs ld)
    marshalMetrics := fun md => .ok (.jsonMetrics md) }

/-- Modelled from the spec: the compact-binary marshaller (constructor
`newProtoMarshaller`, implementation absent from the sources) "emits the
batch using the underlying wire encoding of the telemetry protocol
unchanged"; the payload is the batch itself under a proto tag, and no batch
is rejected. -/
def newProtoMarshaller : Marshaller :=
  { marshalTraces := fun td => .ok (.protoTraces td)
    marshalLogs := fun ld => .ok (.protoLogs ld)
    marshalMetrics := fun md => .ok (.protoMetrics md) }

/-- The columnar marshaller (`parquetMarshaller`). -/
def newParquetMarshaller : Marshaller :=
  { marshalTraces := fun td => (marshalToParquet (flattenSpans td)).map .parquetSpanRows
    marshalLogs := fun ld => (marshalToParquet (flattenLogRecords ld)).map .parquetLogRows
    marshalMetrics := fun md => (marshalToParquet (flattenMetricPoints md)).map .parquetMetricRows }

/-- `newMarshaller` (exporter.go): selects the marshaller from the
configured format string; an unsupported value is an error. -/
def newMarshaller (formatType : String) : Except String Marshaller :=
  if formatType = "json" then .ok newJSONMarshaller
  else if formatType = "proto" then .ok newProtoMarshaller
  else if formatType = "parquet" then .ok newParquetMarshaller
  else .error ("unsupported format type: " ++ formatType)

/-! ## Configuration (`config.go`)

`AuthType` is a string type in Go (`type AuthType string`); the switch in
`Config.Validate` compares against the six named constants and silently
ignores any other value, so the discriminator is kept as a `String`. -/

def connectionStringAuth : String := "connection_string"
def systemManagedIdentityAuth : String := "system_managed_identity"
def userManagedIdentityAuth : String := "user_managed_identity"
def servicePrincipalAuth : String := "service_principal"
def workloadIdentityAuth : String := "workload_identity"
def defaultCredentialsAuth : String := "default_credentials"

structure Authentication where
  type : String
  tenantID : String
  clientID : String
  clientSecret : String
  connectionString : String
  federatedTokenFile : String
  deriving DecidableEq, Repr

structure TelemetryConfig where
  logs : String
  metrics : String
  traces : String
  deriving DecidableEq, Repr

structure BlobNameFormat where
  metricsFormat : String
  logsFormat : String
  tracesFormat : String
  serialNumRange : Int
  serialNumBeforeExtension : Bool
  templateEnabled : Bool
  deriving DecidableEq, Repr

structure AppendBlob where
  enabled : Bool
  separator : String
  deriving DecidableEq, Repr

structure Config where
  url : String
  container : TelemetryConfig
  auth : Authentication
  blobNameFormat : BlobNameFormat
  formatType : String
  appendBlob : AppendBlob
  deriving DecidableEq, Repr

/-- The `switch c.Auth.Type` of `Config.Validate`: per-variant required
fields.  The `system_managed_identity` and `default_credentials` cases (and
any unrecognized value, which matches no case of the Go switch) require no
extra fields. -/
def authFieldsCheck (a : Authentication) : Except String Unit :=
  if a.type = connectionStringAuth then
    if a.connectionString = "" then
      .error "connection_string cannot be empty when auth type is connection_string"
    else .ok ()
  else if a.type = servicePrincipalAuth then
    if a.tenantID = "" ∨ a.clientID = "" ∨ a.clientSecret = "" then
      .error "tenant_id, client_id and client_secret cannot be empty when auth type is service-principal"
    else .ok ()
  else if a.type = userManagedIdentityAuth then
    if a.clientID = "" then
      .error "client_id cannot be empty when auth type is user_managed_identity"
    else .ok ()
  else if a.type = workloadIdentityAuth then
    if a.tenantID = "" ∨ a.clientID = "" ∨ a.federatedTokenFile = "" then
      .error "tenant_id, client_id and federated_token_file cannot be empty when auth type is workload_identity"
    else .ok ()
  else .ok ()

/-- `Config.Validate`: pure validation of the configuration, executed by
collector startup before any credential resolution, client creation or
network call.  Mirrors the Go early-return sequence: URL requirement, the
auth-variant switch, then the format check. -/
def Config.validate (c : Config) : Except String Unit :=
  if c.url = "" ∧ c.auth.type ≠ connectionStringAuth then
    .error "url cannot be empty when auth type is not connection_string"
  else
    match authFieldsCheck c.auth with
    | .error e => .error e
    | .ok () =>
      if c.formatType ≠ "json" ∧ c.formatType ≠ "proto" ∧ c.formatType ≠ "parquet" then
        .error ("unknown format type: " ++ c.formatType)
      else .ok ()

/-- A fully populated, valid configuration used to instantiate theorems at
concrete inputs. -/
def sampleConfig : Config :=
  { url := "https://acct.blob.core.windows.net"
    container := { logs := "logs", metrics := "metrics", traces := "traces" }
    auth :=
      { type := defaultCredentialsAuth, tenantID := "", clientID := ""
        clientSecret := "", connectionString := "", federatedTokenFile := "" }
    blobNameFormat :=
      { metricsFormat := "2006/01/02/metrics_15_04_05.json"
        logsFormat := "2006/01/02/logs_15_04_05.json"
        tracesFormat := "2006/01/02/traces_15_04_05.json"
        serialNumRange := 10000
        serialNumBeforeExtension := false
        templateEnabled := false }
    formatType := "json"
    appendBlob := { enabled := false, separator := "" } }

/-! ## Go time formatting (`time.Time.Format`)

`generateBlobName` renders its chosen format string with `now.Format`.
Model of the Go layout scanner restricted to the numeric layout tokens
`"2006"`, `"06"`, `"15"`, `"1"`, `"2"`, `"3"`, `"4"`, `"5"`, `"01"`..`"05"`
(the tokens the claims exercise); name, day-of-year, fractional-second,
underscore-padded and timezone tokens are outside the model and treated as
literal characters.  Numbers are zero-padded to the token's width exactly
as Go's `appendInt` does for non-negative values. -/

structure GoTime where
  year : Nat
  month : Nat
  day : Nat
  hour : Nat
  minute : Nat
  second : Nat
  deriving DecidableEq, Repr

def padNum (w n : Nat) : List Char :=
  let s := Nat.repr n
  List.replicate (w - s.length) '0' ++ s.data

def hour12 (t : GoTime) : Nat :=
  let h := t.hour % 12
  if h = 0 then 12 else h

def goFormat (t : GoTime) : List Char → List Char
  | [] => []
  | '2' :: '0' :: '0' :: '6' :: rest => padNum 4 t.year ++ goFormat t rest
  | '0' :: '1' :: rest => padNum 2 t.month ++ goFormat t rest
  | '0' :: '2' :: rest => padNum 2 t.day ++ goFormat t rest
  | '0' :: '3' :: rest => padNum 2 (hour12 t) ++ goFormat t rest
  | '0' :: '4' :: rest => padNum 2 t.minute ++ goFormat t rest
  | '0' :: '5' :: rest => padNum 2 t.second ++ goFormat t rest
  | '0' :: '6' :: rest => padNum 2 (t.year % 100) ++ goFormat t rest
  | '1' :: '5' :: rest => padNum 2 t.hour ++ goFormat t rest
  | '1' :: rest => (Nat.repr t.month).data ++ goFormat t rest
  | '2' :: rest => (Nat.repr t.day).data ++ goFormat t rest
  | '3' :: rest => (Nat.repr (hour12 t)).data ++ goFormat t rest
  | '4' :: rest => (Nat.repr t.minute).data ++ goFormat t rest
  | '5' :: rest => (Nat.repr t.second).data ++ goFormat t rest
  | c :: rest => c :: goFormat t rest

/-- Characters at which the modelled layout scanner can start a token. -/
def tokenStart (c : Char) : Prop :=
  c = '0' ∨ c = '1' ∨ c = '2' ∨ c = '3' ∨ c = '4' ∨ c = '5'

instance (c : Char) : Decidable (tokenStart c) := by
  unfold tokenStart; infer_instance

def goFormatStr (t : GoTime) (s : String) : String :=
  ⟨goFormat t s.data⟩

/-! ## `filepath.Ext` and `strings.TrimSuffix` -/

/-- Scan the reversed character list for the last dot of the final path
element: collect characters from the end up to and including the first
`'.'`; reaching a `'/'` or the beginning first means no extension. -/
def extRevTake : List Char → Option (List Char)
  | [] => none
  | c :: rest =>
    if c = '/' then none
    else if c = '.' then some [c]
    else (extRevTake rest).map (c :: ·)

/-- `filepath.Ext`: the suffix beginning at the final dot in the final
element of the path, empty if there is no dot. -/
def pathExt (s : String) : String :=
  match extRevTake s.data.reverse with
  | none => ""
  | some l => ⟨l.reverse⟩

/-- `strings.TrimSuffix`: when `sfx` is a suffix of `s`, the result is `s`
without its last `len(sfx)` characters, otherwise `s` unchanged. -/
def trimSuffix (s sfx : String) : String :=
  if sfx.data.isSuffixOf s.data then
    ⟨s.data.take (s.data.length - sfx.data.length)⟩
  else s

/-! ## The blob name generator (`generateBlobName`, `randomInRange`) -/

/-- `randomInRange(low, hi)` = `low + rand.IntN(hi-low)`.  `rand.IntN`
panics when its bound is not positive; the panic is modelled as an
`Except.error`.  The random draw is supplied by the oracle `rnd` and
reduced modulo the bound, so every value of `[low, hi)` is reachable. -/
def randomInRange (low hi : Int) (rnd : Nat) : Except String Int :=
  if hi - low ≤ 0 then .error "invalid argument to IntN"
  else .ok (low + ((rnd % (hi - low).toNat : Nat) : Int))

inductive Signal where
  | metrics
  | logs
  | traces
  deriving DecidableEq, Repr

/-- A parsed `text/template` for each signal kind (`blobNameTemplate`).
The Go template engine is external; a parsed template is modelled by its
execution function on the telemetry batch, `none` standing for a `nil`
(never-parsed) template. -/
structure BlobNameTemplate (α : Type) where
  metrics : Option (α → Except String String)
  logs : Option (α → Except String String)
  traces : Option (α → Except String String)

def noTemplates (α : Type) : BlobNameTemplate α := ⟨none, none, none⟩

/-- The template field consulted by the arm of `generateBlobName` that
handles the given signal. -/
def signalTemplate {α : Type} (tmpl : BlobNameTemplate α) :
    Signal → Option (α → Except String String)
  | .metrics => tmpl.metrics
  | .logs => tmpl.logs
  | .traces => tmpl.traces

def templateWarning : String :=
  "Failed to execute blob name template, using default blob name format"

/-- One signal's arm of the `switch signal` in `generateBlobName`: start
from the static format; when templating is enabled and the template is
non-nil, execute it — on success its output replaces the format, on error
the static format is kept and a warning is logged. -/
def templateStep {α : Type} (enabled : Bool) (staticFormat : String)
    (tmpl : Option (α → Except String String)) (d : α) : String × List String :=
  if enabled then
    match tmpl with
    | some f =>
      match f d with
      | .error _ => (staticFormat, [templateWarning])
      | .ok s => (s, [])
    | none => (staticFormat, [])
  else (staticFormat, [])

/-- `generateBlobName`: picks the per-signal format, runs the template
step, then appends the random serial number — before the file extension
when `SerialNumBeforeExtension` is set, after the whole name otherwise —
rendering the format through `now.Format` in both branches.  The result
pairs the blob name with the warnings logged during the call.  The Go
`default:` arm (unsupported signal) is unreachable over the three-valued
`Signal` and the two branch-local `randomInRange` calls are a single draw
here. -/
def generateBlobName {α : Type} (cfg : Config) (tmpl : BlobNameTemplate α)
    (signal : Signal) (telemetryData : α) (now : GoTime) (rnd : Nat) :
    Except String (String × List String) :=
  let step : String × List String :=
    match signal with
    | .metrics => templateStep cfg.blobNameFormat.templateEnabled
        cfg.blobNameFormat.metricsFormat tmpl.metrics telemetryData
    | .logs => templateStep cfg.blobNameFormat.templateEnabled
        cfg.blobNameFormat.logsFormat tmpl.logs telemetryData
    | .traces => templateStep cfg.blobNameFormat.templateEnabled
        cfg.blobNameFormat.tracesFormat tmpl.traces telemetryData
  match randomInRange 0 cfg.blobNameFormat.serialNumRange rnd with
  | .error e => .error e
  | .ok k =>
    if cfg.blobNameFormat.serialNumBeforeExtension then
      let ext := pathExt step.1
      let fwe := trimSuffix step.1 ext
      .ok (goFormatStr now fwe ++ "_" ++ toString k ++ ext, step.2)
    else
      .ok (goFormatStr now step.1 ++ "_" ++ toString k, step.2)

/-! ## The append write path (`consumeData`, lines 432-441)

In append mode `consumeData` mutates the payload — `data = append(data,
separator...)` when a separator is configured — and then calls the
`AppendBlock` primitive, which appends the bytes to the target object's
current content. -/

def appendBlobData (sep data : String) : String :=
  if sep ≠ "" then data ++ sep else data

/-- The `AppendBlock` storage primitive on a single object's content. -/
def appendBlock (content data : String) : String := content ++ data

/-- One append-mode export of `payload` to an object currently holding
`content`, under separator configuration `sep`. -/
def appendExport (sep content payload : String) : String :=
  appendBlock content (appendBlobData sep payload)

/-! ## The blob-name-template lookup functions (`tempFuncs`)

`pcommon` collections index with `.At(i)`, which panics when `i` is out of
range; the panic is modelled as an `Except.error`.  Each lookup guards only
non-emptiness of the collections (`Len() > 0`) before indexing. -/

def atIdx {α : Type} (l : List α) (i : Int) : Except String α :=
  if h : 0 ≤ i ∧ i.toNat < l.length then .ok (l.get ⟨i.toNat, h.2⟩)
  else .error "index out of range"

/-- `getAttrStandalone`: the raw attribute value, `nil` (`none`) when the
key is absent. -/
def getAttrStandalone (attrs : AttrMap) (key : String) : Option AttrValue :=
  attrs.get key

def getResourceSpanAttr (traces : Traces) (rmIndex : Int) (key : String) :
    Except String (Option AttrValue) :=
  if traces.resourceSpans.length > 0 then do
    let rs ← atIdx traces.resourceSpans rmIndex
    return getAttrStandalone rs.resource.attributes key
  else return none

def getResourceMetricAttr (metrics : Metrics) (rmIndex : Int) (key : String) :
    Except String (Option AttrValue) :=
  if metrics.resourceMetrics.length > 0 then do
    let rm ← atIdx metrics.resourceMetrics rmIndex
    return getAttrStandalone rm.resource.attributes key
  else return none

def getResourceLogAttr (logs : Logs) (rlIndex : Int) (key : String) :
    Except String (Option AttrValue) :=
  if logs.resourceLogs.length > 0 then do
    let rl ← atIdx logs.resourceLogs rlIndex
    return getAttrStandalone rl.resource.attributes key
  else return none

def getScopeSpanAttr (traces : Traces) (rmIndex ilsIndex : Int) (key : String) :
    Except String (Option AttrValue) :=
  if traces.resourceSpans.length > 0 then do
    let rs ← atIdx traces.resourceSpans rmIndex
    if rs.scopeSpans.length > 0 then do
      let ils ← atIdx rs.scopeSpans ilsIndex
      return getAttrStandalone ils.scope.attributes key
    else return none
  else return none

def getScopeMetricAttr (metrics : Metrics) (rmIndex ilmIndex : Int) (key : String) :
    Except String (Option AttrValue) :=
  if metrics.resourceMetrics.length > 0 then do
    let rm ← atIdx metrics.resourceMetrics rmIndex
    if rm.scopeMetrics.length > 0 then do
      let ilm ← atIdx rm.scopeMetrics ilmIndex
      return getAttrStandalone ilm.scope.attributes key
    else return none
  else return none

def getScopeLogAttr (logs : Logs) (rlIndex ilsIndex : Int) (key : String) :
    Except String (Option AttrValue) :=
  if logs.resourceLogs.length > 0 then do
    let rl ← atIdx logs.resourceLogs rlIndex
    if rl.scopeLogs.length > 0 then do
      let ils ← atIdx rl.scopeLogs ilsIndex
      return getAttrStandalone ils.scope.attributes key
    else return none
  else return none

def getMetric (metrics : Metrics) (rmIndex ilmIndex metricIndex : Int) :
    Except String Metric :=
  if metrics.resourceMetrics.length > 0 then do
    let rm ← atIdx metrics.resourceMetrics rmIndex
    if rm.scopeMetrics.length > 0 then do
      let ilm ← atIdx rm.scopeMetrics ilmIndex
      if ilm.metrics.length > 0 then atIdx ilm.metrics metricIndex
      else return emptyMetric
    else return emptyMetric
  else return emptyMetric

def getSpan (traces : Traces) (rmIndex ilsIndex spanIndex : Int) :
    Except String Span :=
  if traces.resourceSpans.length > 0 then do
    let rs ← atIdx traces.resourceSpans rmIndex
    if rs.scopeSpans.length > 0 then do
      let ils ← atIdx rs.scopeSpans ilsIndex
      if ils.spans.length > 0 then atIdx ils.spans spanIndex
      else return emptySpan
    else return emptySpan
  else return emptySpan

def getLogRecord (logs : Logs) (rlIndex ilsIndex logIndex : Int) :
    Except String LogRecord :=
  if logs.resourceLogs.length > 0 then do
    let rl ← atIdx logs.resourceLogs rlIndex
    if rl.scopeLogs.length > 0 then do
      let ils ← atIdx rl.scopeLogs ilsIndex
      if ils.logRecords.length > 0 then atIdx ils.logRecords logIndex
      else return emptyLogRecord
    else return emptyLogRecord
  else return emptyLogRecord

/-! ## Helper lemmas -/

theorem marshalToParquet_eq_ok {T : Type} (rows : List T) :
    marshalToParquet rows = Except.ok rows := by
  cases rows <;> simp [marshalToParquet]

theorem flattenSpans_length (td : Traces) :
    (flattenSpans td).length = spanCount td := by
  simp [flattenSpans, spanCount, List.length_flatten, Function.comp_def]

theorem flattenLogRecords_length (ld : Logs) :
    (flattenLogRecords ld).length = logRecordCount ld := by
  simp [flattenLogRecords, logRecordCount, List.length_flatten, Function.comp_def]

theorem metricRows_length (resourceAttrs : List (String × String))
    (scopeName scopeVersion : String) (m : Metric) :
    (metricRows resourceAttrs scopeName scopeVersion m).length = m.dataPointCount := by
  unfold metricRows Metric.dataPointCount
  cases m.data <;>
    simp [extractGaugeMetrics, extractSumMetrics, extractSumValuedMetrics]

theorem flattenMetricPoints_length (md : Metrics) :
    (flattenMetricPoints md).length = metricPointCount md := by
  simp [flattenMetricPoints, metricPointCount, List.length_flatten,
    Function.comp_def, metricRows_length]

/-! ## C1 — append-mode separator placement -/

/-- C1 counterexample: with separator `"\n"`, appending payloads `"A"` then
`"B"` to a previously empty object does not leave `"A\nB"` (the stored
content is `"A\nB\n"`: the separator is appended after each payload, not
placed between them). -/
theorem appendTwice_ne_claimed :
    appendExport "\n" (appendExport "\n" "" "A") "B" ≠ "A\nB" := by
  decide

/-- C1 (amended): in append mode, when a separator is configured it is
appended after each exported payload, including the first; two sequential
exports of `a` then `b` to a previously empty object leave the stored
content `a ++ sep ++ b ++ sep` (for separator `"\n"` and payloads `"A"`,
`"B"`: `"A\nB\n"`). -/
theorem appendTwice_separator_after_each (sep a b : String) (h : sep ≠ "") :
    appendExport sep (appendExport sep "" a) b = a ++ sep ++ b ++ sep := by
  simp [appendExport, appendBlock, appendBlobData, h, String.append_assoc]

/-- Witness for the amended C1 theorem at separator `"\n"`, payloads `"A"`
and `"B"`. -/
theorem appendTwice_separator_after_each_witness :
    ("\n" : String) ≠ "" ∧
      appendExport "\n" (appendExport "\n" "" "A") "B" = "A" ++ "\n" ++ "B" ++ "\n" :=
  ⟨by decide, appendTwice_separator_after_each "\n" "A" "B" (by decide)⟩

/-! ## C5 — marshalling an empty batch -/

/-- C5: for each of the three output formats (structured-text/json,
compact-binary/proto, columnar/parquet), marshalling an empty batch (zero
resource groups) of any signal kind returns without error, with a payload
representing zero records. -/
theorem emptyBatch_marshals_ok (td : Traces) (ld : Logs) (md : Metrics)
    (ht : td.resourceSpans = []) (hl : ld.resourceLogs = [])
    (hm : md.resourceMetrics = []) :
    ((newJSONMarshaller.marshalTraces td).map payloadRecordCount = Except.ok 0 ∧
      (newJSONMarshaller.marshalLogs ld).map payloadRecordCount = Except.ok 0 ∧
      (newJSONMarshaller.marshalMetrics md).map payloadRecordCount = Except.ok 0) ∧
    ((newProtoMarshaller.marshalTraces td).map payloadRecordCount = Except.ok 0 ∧
      (newProtoMarshaller.marshalLogs ld).map payloadRecordCount = Except.ok 0 ∧
      (newProtoMarshaller.marshalMetrics md).map payloadRecordCount = Except.ok 0) ∧
    ((newParquetMarshaller.marshalTraces td).map payloadRecordCount = Except.ok 0 ∧
      (newParquetMarshaller.marshalLogs ld).map payloadRecordCount = Except.ok 0 ∧
      (newParquetMarshaller.marshalMetrics md).map payloadRecordCount = Except.ok 0) := by
  cases td; cases ld; cases md
  subst ht hl hm
  exact ⟨⟨rfl, rfl, rfl⟩, ⟨rfl, rfl, rfl⟩, ⟨rfl, rfl, rfl⟩⟩

/-- Witness for C5 at the concrete empty batches. -/
theorem emptyBatch_marshals_ok_witness :
    (Traces.mk []).resourceSpans = [] ∧
      (newParquetMarshaller.marshalTraces ⟨[]⟩).map payloadRecordCount = Except.ok 0 ∧
      (newJSONMarshaller.marshalMetrics ⟨[]⟩).map payloadRecordCount = Except.ok 0 :=
  ⟨rfl, (emptyBatch_marshals_ok ⟨[]⟩ ⟨[]⟩ ⟨[]⟩ rfl rfl rfl).2.2.1,
    (emptyBatch_marshals_ok ⟨[]⟩ ⟨[]⟩ ⟨[]⟩ rfl rfl rfl).1.2.2⟩

/-! ## C10 — no validation constraint on `SerialNumRange`, generator
panics when it is non-positive -/

/-- C10: `Config.Validate` places no constraint on `SerialNumRange` (or any
other blob-name-format field): replacing the whole `BlobNameFormat` block
leaves the validation verdict unchanged, so a configuration with
`SerialNumRange ≤ 0` passes validation whenever the rest of the
configuration does.  Under such a configuration, every call to the blob
name generator fails — `randomInRange` invokes `rand.IntN` with a
non-positive bound, a runtime panic — so no export call can produce a
name. -/
theorem validate_ignores_serialNumRange :
    (∀ (c : Config) (bnf : BlobNameFormat),
      Config.validate { c with blobNameFormat := bnf } = c.validate) ∧
    (∀ (α : Type) (cfg : Config) (tmpl : BlobNameTemplate α) (signal : Signal)
      (d : α) (now : GoTime) (rnd : Nat),
      cfg.blobNameFormat.serialNumRange ≤ 0 →
      generateBlobName cfg tmpl signal d now rnd =
        Except.error "invalid argument to IntN") := by
  constructor
  · intro c bnf
    cases c
    rfl
  · intro α cfg tmpl signal d now rnd h
    simp [generateBlobName, randomInRange, h]

/-- Witness for C10: a concrete configuration with `SerialNumRange = 0`
passes validation, and the generator fails on it. -/
theorem validate_ignores_serialNumRange_witness :
    Config.validate
        { sampleConfig with
            blobNameFormat := { sampleConfig.blobNameFormat with serialNumRange := 0 } } =
      Except.ok () ∧
    generateBlobName
        { sampleConfig with
            blobNameFormat := { sampleConfig.blobNameFormat with serialNumRange := 0 } }
        (noTemplates Unit) Signal.traces () ⟨2025, 10, 11, 12, 30, 45⟩ 7 =
      Except.error "invalid argument to IntN" := by
  refine ⟨?_, ?_⟩
  · have := (validate_ignores_serialNumRange).1 sampleConfig
      { sampleConfig.blobNameFormat with serialNumRange := 0 }
    rw [this]
    rfl
  · exact (validate_ignores_serialNumRange).2 Unit _ (noTemplates Unit)
      Signal.traces () ⟨2025, 10, 11, 12, 30, 45⟩ 7 (by decide)

/-! ## C6 — per-variant auth validation in `Config.Validate` -/

/-- C6: required auth fields are checked by the pure `Config.Validate`
(run at startup, before any client creation or network call): a
`service_principal` configuration with an empty client secret, tenant id or
client id is rejected; `connection_string` requires a non-empty connection
string; `user_managed_identity` requires a client id;
`workload_identity` requires tenant id, client id and federated token
file; `system_managed_identity` and `default_credentials` need no extra
fields and validate successfully whenever the URL and format checks pass. -/
theorem validate_auth_variants (c : Config) :
    (c.auth.type = servicePrincipalAuth →
      (c.auth.tenantID = "" ∨ c.auth.clientID = "" ∨ c.auth.clientSecret = "") →
      c.validate ≠ Except.ok ()) ∧
    (c.auth.type = connectionStringAuth → c.auth.connectionString = "" →
      c.validate ≠ Except.ok ()) ∧
    (c.auth.type = userManagedIdentityAuth → c.auth.clientID = "" →
      c.validate ≠ Except.ok ()) ∧
    (c.auth.type = workloadIdentityAuth →
      (c.auth.tenantID = "" ∨ c.auth.clientID = "" ∨ c.auth.federatedTokenFile = "") →
      c.validate ≠ Except.ok ()) ∧
    ((c.auth.type = systemManagedIdentityAuth ∨ c.auth.type = defaultCredentialsAuth) →
      c.url ≠ "" →
      (c.formatType = "json" ∨ c.formatType = "proto" ∨ c.formatType = "parquet") →
      c.validate = Except.ok ()) := by
  refine ⟨?_, ?_, ?_, ?_, ?_⟩
  · intro htype hmissing
    simp only [Config.validate, authFieldsCheck, htype, servicePrincipalAuth,
      connectionStringAuth]
    split_ifs <;> simp_all
  · intro htype hcs
    simp only [Config.validate, authFieldsCheck, htype, connectionStringAuth]
    split_ifs <;> simp_all
  · intro htype hcid
    simp only [Config.validate, authFieldsCheck, htype, userManagedIdentityAuth,
      connectionStringAuth, servicePrincipalAuth]
    split_ifs <;> simp_all
  · intro htype hmissing
    simp only [Config.validate, authFieldsCheck, htype, workloadIdentityAuth,
      connectionStringAuth, servicePrincipalAuth, userManagedIdentityAuth]
    split_ifs <;> simp_all
  · intro htype hurl hfmt
    rcases htype with htype | htype <;>
      simp only [Config.validate, authFieldsCheck, htype,
        systemManagedIdentityAuth, defaultCredentialsAuth, connectionStringAuth,
        servicePrincipalAuth, userManagedIdentityAuth, workloadIdentityAuth] <;>
      split_ifs <;> simp_all

/-- Witness for C6: a `service_principal` configuration with an empty
client secret is rejected, and a `default_credentials` configuration with
no extra fields validates successfully. -/
theorem validate_auth_variants_witness :
    Config.validate
        { sampleConfig with
            auth := { sampleConfig.auth with
                        type := servicePrincipalAuth, tenantID := "t"
                        clientID := "c", clientSecret := "" } } ≠ Except.ok () ∧
    Config.validate sampleConfig = Except.ok () := by
  constructor
  · exact (validate_auth_variants _).1 rfl (Or.inr (Or.inr rfl))
  · exact (validate_auth_variants sampleConfig).2.2.2.2 (Or.inr rfl)
      (by decide) (Or.inl rfl)

/-! ## C3 — columnar row count invariant -/

/-- C3: for every batch, the columnar (parquet) marshaller emits exactly
one row per leaf record: span rows equal the total span count, log rows the
total log-record count, and metric rows the total metric-data-point count
(counted per data point, not per metric). -/
theorem parquet_row_count_invariant :
    (∀ td : Traces,
      (newParquetMarshaller.marshalTraces td).map payloadRecordCount =
        Except.ok (spanCount td)) ∧
    (∀ ld : Logs,
      (newParquetMarshaller.marshalLogs ld).map payloadRecordCount =
        Except.ok (logRecordCount ld)) ∧
    (∀ md : Metrics,
      (newParquetMarshaller.marshalMetrics md).map payloadRecordCount =
        Except.ok (metricPointCount md)) := by
  refine ⟨fun td => ?_, fun ld => ?_, fun md => ?_⟩
  · simp [newParquetMarshaller, marshalToParquet_eq_ok, Except.map,
      payloadRecordCount, flattenSpans_length]
  · simp [newParquetMarshaller, marshalToParquet_eq_ok, Except.map,
      payloadRecordCount, flattenLogRecords_length]
  · simp [newParquetMarshaller, marshalToParquet_eq_ok, Except.map,
      payloadRecordCount, flattenMetricPoints_length]

/-! ## C7 — resource attributes denormalized onto every row -/

theorem lookup_attributesToMap (attrs : AttrMap) (k : String) :
    (attributesToMap attrs).lookup k = (attrs.get k).map AttrValue.asString := by
  unfold attributesToMap AttrMap.get
  induction attrs.pairs with
  | nil => rfl
  | cons p ps ih =>
    simp only [List.map_cons, List.lookup]
    split <;> simp_all

/-- C7: for every batch of 3 spans whose single resource carries
`service.name = "checkout"`, the columnar marshaller produces exactly 3
rows, and every row's resource-attribute map contains `"service.name"`
with value `"checkout"` (resource attributes denormalized onto every row,
coerced to strings). -/
theorem parquet_rows_carry_resource_attrs (td : Traces) (rg : ResourceSpans)
    (hres : td.resourceSpans = [rg])
    (hattr : rg.resource.attributes.get "service.name" = some (.str "checkout"))
    (hcount : spanCount td = 3) :
    ∃ rows, newParquetMarshaller.marshalTraces td = Except.ok (.parquetSpanRows rows) ∧
      rows.length = 3 ∧
      ∀ row ∈ rows, row.resourceAttributes.lookup "service.name" = some "checkout" := by
  refine ⟨flattenSpans td, ?_, ?_, ?_⟩
  · simp [newParquetMarshaller, marshalToParquet_eq_ok, Except.map]
  · rw [flattenSpans_length, hcount]
  · intro row hrow
    have hra : row.resourceAttributes = attributesToMap rg.resource.attributes := by
      simp only [flattenSpans, hres, List.map_cons, List.map_nil,
        List.flatten_cons, List.flatten_nil, List.append_nil] at hrow
      rw [List.mem_flatten] at hrow
      obtain ⟨l, hl, hrl⟩ := hrow
      rw [List.mem_map] at hl
      obtain ⟨ss, _, rfl⟩ := hl
      rw [List.mem_map] at hrl
      obtain ⟨sp, _, rfl⟩ := hrl
      rfl
    rw [hra, lookup_attributesToMap, hattr]
    rfl

/-- Witness for C7: a concrete one-resource, one-scope batch of 3 spans
with `service.name = "checkout"`. -/
theorem parquet_rows_carry_resource_attrs_witness :
    ∃ rows,
      newParquetMarshaller.marshalTraces
          ⟨[⟨⟨⟨[("service.name", .str "checkout")]⟩⟩,
             [⟨⟨"scope", "v1", ⟨[]⟩⟩, [emptySpan, emptySpan, emptySpan]⟩]⟩]⟩ =
        Except.ok (.parquetSpanRows rows) ∧
      rows.length = 3 ∧
      ∀ row ∈ rows, row.resourceAttributes.lookup "service.name" = some "checkout" :=
  parquet_rows_carry_resource_attrs _ _ rfl rfl rfl

/-! ## C4 — template failure falls back to the static pattern -/

/-- C4: a blob-name-template execution failure never aborts the export
call, for any signal kind (each of the metrics, logs and traces arms of
`generateBlobName`): the generator returns without error, produces exactly
the name that the static pattern (a nil/no-template run with the same time
and random draw) produces, and logs a warning. -/
theorem template_failure_falls_back {α : Type} (cfg : Config)
    (tmpl : BlobNameTemplate α) (signal : Signal) (f : α → Except String String)
    (d : α) (now : GoTime) (rnd : Nat) (e : String)
    (henabled : cfg.blobNameFormat.templateEnabled = true)
    (htmpl : signalTemplate tmpl signal = some f)
    (hfail : f d = Except.error e)
    (hrange : 0 < cfg.blobNameFormat.serialNumRange) :
    ∃ n, generateBlobName cfg tmpl signal d now rnd =
        Except.ok (n, [templateWarning]) ∧
      generateBlobName cfg (noTemplates α) signal d now rnd = Except.ok (n, []) := by
  have hr : ¬ (cfg.blobNameFormat.serialNumRange - 0 ≤ 0) := by omega
  cases signal <;>
    (simp only [signalTemplate] at htmpl;
     simp only [generateBlobName, templateStep, noTemplates, randomInRange,
       henabled, htmpl, hfail, if_neg hr];
     split_ifs <;> exact ⟨_, rfl, rfl⟩)

/-- Witness for C4 at a concrete failing metrics template. -/
theorem template_failure_falls_back_witness :
    ∃ n, generateBlobName
          { sampleConfig with
              blobNameFormat := { sampleConfig.blobNameFormat with templateEnabled := true } }
          (⟨some fun (_ : Unit) => Except.error "boom", none, none⟩ : BlobNameTemplate Unit)
          .metrics () ⟨2025, 10, 11, 12, 30, 45⟩ 7 =
        Except.ok (n, [templateWarning]) ∧
      generateBlobName
          { sampleConfig with
              blobNameFormat := { sampleConfig.blobNameFormat with templateEnabled := true } }
          (noTemplates Unit) .metrics () ⟨2025, 10, 11, 12, 30, 45⟩ 7 =
        Except.ok (n, []) :=
  template_failure_falls_back _ _ .metrics _ () ⟨2025, 10, 11, 12, 30, 45⟩ 7 "boom"
    rfl rfl rfl (by decide)

/-! ## C8 — random serial number always appended -/

/-- C8: every successful call of the blob name generator (any signal, any
batch, `SerialNumRange > 0`) appends a random integer of
`[0, SerialNumRange)` to the generated name — immediately before the
file-extension suffix when `SerialNumBeforeExtension` is set, after the
full name otherwise.  `f` is the format string left by the template step
and `k = rnd % SerialNumRange` the value drawn by `randomInRange`. -/
theorem serial_number_always_appended {α : Type} (cfg : Config)
    (tmpl : BlobNameTemplate α) (signal : Signal) (d : α) (now : GoTime) (rnd : Nat)
    (hrange : 0 < cfg.blobNameFormat.serialNumRange) :
    ∃ (f : String) (w : List String),
      ((rnd % cfg.blobNameFormat.serialNumRange.toNat : Nat) : Int) <
          cfg.blobNameFormat.serialNumRange ∧
      generateBlobName cfg tmpl signal d now rnd =
        Except.ok
          ((if cfg.blobNameFormat.serialNumBeforeExtension then
              goFormatStr now (trimSuffix f (pathExt f)) ++ "_" ++
                toString ((rnd % cfg.blobNameFormat.serialNumRange.toNat : Nat) : Int) ++
                pathExt f
            else
              goFormatStr now f ++ "_" ++
                toString ((rnd % cfg.blobNameFormat.serialNumRange.toNat : Nat) : Int)),
            w) := by
  have hr0 : ¬ (cfg.blobNameFormat.serialNumRange ≤ 0) := by omega
  have hpos : 0 < cfg.blobNameFormat.serialNumRange.toNat := by omega
  have hb : ((rnd % cfg.blobNameFormat.serialNumRange.toNat : Nat) : Int) <
      cfg.blobNameFormat.serialNumRange := by
    have := Nat.mod_lt rnd hpos
    omega
  cases signal
  case metrics =>
    refine ⟨(templateStep cfg.blobNameFormat.templateEnabled
        cfg.blobNameFormat.metricsFormat tmpl.metrics d).1,
      (templateStep cfg.blobNameFormat.templateEnabled
        cfg.blobNameFormat.metricsFormat tmpl.metrics d).2, hb, ?_⟩
    simp only [generateBlobName, randomInRange, sub_zero, if_neg hr0, zero_add]
    split_ifs <;> rfl
  case logs =>
    refine ⟨(templateStep cfg.blobNameFormat.templateEnabled
        cfg.blobNameFormat.logsFormat tmpl.logs d).1,
      (templateStep cfg.blobNameFormat.templateEnabled
        cfg.blobNameFormat.logsFormat tmpl.logs d).2, hb, ?_⟩
    simp only [generateBlobName, randomInRange, sub_zero, if_neg hr0, zero_add]
    split_ifs <;> rfl
  case traces =>
    refine ⟨(templateStep cfg.blobNameFormat.templateEnabled
        cfg.blobNameFormat.tracesFormat tmpl.traces d).1,
      (templateStep cfg.blobNameFormat.templateEnabled
        cfg.blobNameFormat.tracesFormat tmpl.traces d).2, hb, ?_⟩
    simp only [generateBlobName, randomInRange, sub_zero, if_neg hr0, zero_add]
    split_ifs <;> rfl

/-- Witness for C8 at a concrete call (static mode, suffix after the full
name). -/
theorem serial_number_always_appended_witness :
    ∃ (f : String) (w : List String),
      ((7 % sampleConfig.blobNameFormat.serialNumRange.toNat : Nat) : Int) <
          sampleConfig.blobNameFormat.serialNumRange ∧
      generateBlobName sampleConfig (noTemplates Unit) .traces ()
          ⟨2025, 10, 11, 12, 30, 45⟩ 7 =
        Except.ok
          ((if sampleConfig.blobNameFormat.serialNumBeforeExtension then
              goFormatStr ⟨2025, 10, 11, 12, 30, 45⟩ (trimSuffix f (pathExt f)) ++ "_" ++
                toString ((7 % sampleConfig.blobNameFormat.serialNumRange.toNat : Nat) : Int) ++
                pathExt f
            else
              goFormatStr ⟨2025, 10, 11, 12, 30, 45⟩ f ++ "_" ++
                toString ((7 % sampleConfig.blobNameFormat.serialNumRange.toNat : Nat) : Int)),
            w) :=
  serial_number_always_appended sampleConfig (noTemplates Unit) .traces ()
    ⟨2025, 10, 11, 12, 30, 45⟩ 7 (by decide)

/-! ## Layout-scanner lemmas for C9 -/

theorem goFormat_pass (t : GoTime) (c : Char) (rest : List Char)
    (h : ¬ tokenStart c) :
    goFormat t (c :: rest) = c :: goFormat t rest := by
  unfold tokenStart at h
  push_neg at h
  apply goFormat.eq_15 <;> intros <;> simp_all

theorem goFormat_year (t : GoTime) (rest : List Char) :
    goFormat t ('2' :: '0' :: '0' :: '6' :: rest) =
      padNum 4 t.year ++ goFormat t rest :=
  goFormat.eq_2 t rest

theorem goFormat_append_pass (t : GoTime) (pre l : List Char)
    (h : ∀ c ∈ pre, ¬ tokenStart c) :
    goFormat t (pre ++ l) = pre ++ goFormat t l := by
  induction pre with
  | nil => simp
  | cons c cs ih =>
    simp only [List.cons_append]
    rw [goFormat_pass t c (cs ++ l) (h c (List.mem_cons_self c cs))]
    rw [ih fun x hx => h x (List.mem_cons_of_mem c hx)]

theorem goFormat_free (t : GoTime) (l : List Char)
    (h : ∀ c ∈ l, ¬ tokenStart c) :
    goFormat t l = l := by
  have h0 : goFormat t ([] : List Char) = [] := goFormat.eq_1 t
  have := goFormat_append_pass t l [] h
  simpa [h0] using this

theorem goFormat_hour (t : GoTime) (rest : List Char) :
    goFormat t ('1' :: '5' :: rest) = padNum 2 t.hour ++ goFormat t rest :=
  goFormat.eq_9 t rest

theorem toDigitsCore_length_ge (b fuel n : Nat) (ds : List Char) :
    ds.length ≤ (Nat.toDigitsCore b fuel n ds).length := by
  induction fuel generalizing n ds with
  | zero => simp [Nat.toDigitsCore]
  | succ f ih =>
    unfold Nat.toDigitsCore
    dsimp only
    split_ifs
    · simp
    · exact le_trans (by simp) (ih _ _)

theorem toDigitsCore_length_succ (b f n : Nat) (ds : List Char) :
    ds.length + 1 ≤ (Nat.toDigitsCore b (f + 1) n ds).length := by
  unfold Nat.toDigitsCore
  dsimp only
  split_ifs
  · simp
  · exact le_trans (by simp) (toDigitsCore_length_ge b f _ _)

theorem natRepr_length_pos (n : Nat) : 1 ≤ (Nat.repr n).length := by
  unfold Nat.repr
  have h := toDigitsCore_length_succ 10 n n []
  simpa [Nat.toDigits, List.asString] using h

theorem padNum_length (w n : Nat) : w ≤ (padNum w n).length := by
  simp [padNum]
  omega

/-- The modelled layout scanner never shrinks its input: every token's
rendering is at least as long as the token it replaces. -/
theorem goFormat_length_ge (t : GoTime) (l : List Char) :
    l.length ≤ (goFormat t l).length := by
  induction l using goFormat.induct t
  all_goals simp_all [goFormat]
  all_goals
    have h1 := padNum_length 4 t.year
    have h2 := padNum_length 2 t.month
    have h3 := padNum_length 2 t.day
    have h4 := padNum_length 2 (hour12 t)
    have h5 := padNum_length 2 t.minute
    have h6 := padNum_length 2 t.second
    have h7 := padNum_length 2 (t.year % 100)
    have h8 := padNum_length 2 t.hour
    have h9 := natRepr_length_pos t.month
    have h10 := natRepr_length_pos t.day
    have h11 := natRepr_length_pos (hour12 t)
    have h12 := natRepr_length_pos t.minute
    have h13 := natRepr_length_pos t.second
    omega

theorem goFormatStr_length_ge (t : GoTime) (s : String) :
    s.length ≤ (goFormatStr t s).length := by
  obtain ⟨l⟩ := s
  simpa [goFormatStr, String.length_mk] using goFormat_length_ge t l

theorem trimSuffix_length_ge (s sfx : String) :
    s.length ≤ (trimSuffix s sfx).length + sfx.length := by
  obtain ⟨l⟩ := s
  obtain ⟨m⟩ := sfx
  unfold trimSuffix
  split_ifs <;> simp [String.length_mk, String.length, List.length_take] <;> omega

/-! ## C9 — template output is additionally time-formatted -/

/-- C9: in template mode, even when template execution succeeds, the
template's output string is additionally interpreted as a Go time-format
layout and rendered against the export time before the random suffix is
added: for every signal kind and both suffix-placement modes, the generated
name is built from `now.Format` of the template output (of its
extension-stripped part, with the raw extension re-appended, in
before-extension mode), and the final blob name always differs from the raw
template output; in that rendering the layout tokens are replaced by
components of the export time — in token-free context, `"2006"` renders as
the year and `"15"` as the hour. -/
theorem template_output_time_formatted {α : Type} (cfg : Config)
    (tmpl : BlobNameTemplate α) (signal : Signal) (f : α → Except String String)
    (d : α) (now : GoTime) (rnd : Nat) (s : String)
    (henabled : cfg.blobNameFormat.templateEnabled = true)
    (htmpl : signalTemplate tmpl signal = some f)
    (hok : f d = Except.ok s)
    (hrange : 0 < cfg.blobNameFormat.serialNumRange) :
    ∃ n : String,
      generateBlobName cfg tmpl signal d now rnd = Except.ok (n, []) ∧
      n = (if cfg.blobNameFormat.serialNumBeforeExtension then
            goFormatStr now (trimSuffix s (pathExt s)) ++ "_" ++
              toString ((rnd % cfg.blobNameFormat.serialNumRange.toNat : Nat) : Int) ++
              pathExt s
          else
            goFormatStr now s ++ "_" ++
              toString ((rnd % cfg.blobNameFormat.serialNumRange.toNat : Nat) : Int)) ∧
      n ≠ s ∧
      (∀ pre post : List Char,
        (∀ c ∈ pre, ¬ tokenStart c) → (∀ c ∈ post, ¬ tokenStart c) →
        goFormatStr now ⟨pre ++ ('2' :: '0' :: '0' :: '6' :: post)⟩ =
          ⟨pre ++ (padNum 4 now.year ++ post)⟩) ∧
      (∀ pre post : List Char,
        (∀ c ∈ pre, ¬ tokenStart c) → (∀ c ∈ post, ¬ tokenStart c) →
        goFormatStr now ⟨pre ++ ('1' :: '5' :: post)⟩ =
          ⟨pre ++ (padNum 2 now.hour ++ post)⟩) := by
  have hr0 : ¬ (cfg.blobNameFormat.serialNumRange ≤ 0) := by omega
  have htok1 : ∀ pre post : List Char,
      (∀ c ∈ pre, ¬ tokenStart c) → (∀ c ∈ post, ¬ tokenStart c) →
      goFormatStr now ⟨pre ++ ('2' :: '0' :: '0' :: '6' :: post)⟩ =
        ⟨pre ++ (padNum 4 now.year ++ post)⟩ := by
    intro pre post hpre hpost
    show String.mk (goFormat now (pre ++ ('2' :: '0' :: '0' :: '6' :: post))) = _
    rw [goFormat_append_pass now pre _ hpre, goFormat_year,
      goFormat_free now post hpost]
  have htok2 : ∀ pre post : List Char,
      (∀ c ∈ pre, ¬ tokenStart c) → (∀ c ∈ post, ¬ tokenStart c) →
      goFormatStr now ⟨pre ++ ('1' :: '5' :: post)⟩ =
        ⟨pre ++ (padNum 2 now.hour ++ post)⟩ := by
    intro pre post hpre hpost
    show String.mk (goFormat now (pre ++ ('1' :: '5' :: post))) = _
    rw [goFormat_append_pass now pre _ hpre, goFormat_hour,
      goFormat_free now post hpost]
  have hlen : s.length <
      ((if cfg.blobNameFormat.serialNumBeforeExtension then
          goFormatStr now (trimSuffix s (pathExt s)) ++ "_" ++
            toString ((rnd % cfg.blobNameFormat.serialNumRange.toNat : Nat) : Int) ++
            pathExt s
        else
          goFormatStr now s ++ "_" ++
            toString ((rnd % cfg.blobNameFormat.serialNumRange.toNat : Nat) : Int)) :
        String).length := by
    have hu : ("_" : String).length = 1 := rfl
    split_ifs
    · have h1 := trimSuffix_length_ge s (pathExt s)
      have h2 := goFormatStr_length_ge now (trimSuffix s (pathExt s))
      simp only [String.length_append]
      omega
    · have h2 := goFormatStr_length_ge now s
      simp only [String.length_append]
      omega
  refine ⟨_, ?_, rfl, ?_, htok1, htok2⟩
  · cases signal <;>
      (simp only [signalTemplate] at htmpl;
       simp only [generateBlobName, templateStep, randomInRange, henabled,
         htmpl, hok, sub_zero, if_neg hr0, zero_add];
       split_ifs <;> rfl)
  · intro heq
    rw [heq] at hlen
    exact lt_irrefl _ hlen

/-- Witness for C9: a logs-signal call whose template output is
`"x2006y"`, at a 2025 export time. -/
theorem template_output_time_formatted_witness :
    ∃ n : String,
      generateBlobName
          { sampleConfig with
              blobNameFormat := { sampleConfig.blobNameFormat with templateEnabled := true } }
          (⟨none, some fun (_ : Unit) => Except.ok "x2006y", none⟩ : BlobNameTemplate Unit)
          .logs () ⟨2025, 10, 11, 12, 30, 45⟩ 7 = Except.ok (n, []) ∧
      n = (if ({ sampleConfig with
              blobNameFormat :=
                { sampleConfig.blobNameFormat with templateEnabled := true } } :
              Config).blobNameFormat.serialNumBeforeExtension then
            goFormatStr ⟨2025, 10, 11, 12, 30, 45⟩
                (trimSuffix "x2006y" (pathExt "x2006y")) ++ "_" ++
              toString ((7 % ({ sampleConfig with
                  blobNameFormat :=
                    { sampleConfig.blobNameFormat with templateEnabled := true } } :
                  Config).blobNameFormat.serialNumRange.toNat : Nat) : Int) ++
              pathExt "x2006y"
          else
            goFormatStr ⟨2025, 10, 11, 12, 30, 45⟩ "x2006y" ++ "_" ++
              toString ((7 % ({ sampleConfig with
                  blobNameFormat :=
                    { sampleConfig.blobNameFormat with templateEnabled := true } } :
                  Config).blobNameFormat.serialNumRange.toNat : Nat) : Int)) ∧
      n ≠ "x2006y" ∧
      (∀ pre post : List Char,
        (∀ c ∈ pre, ¬ tokenStart c) → (∀ c ∈ post, ¬ tokenStart c) →
        goFormatStr ⟨2025, 10, 11, 12, 30, 45⟩
            ⟨pre ++ ('2' :: '0' :: '0' :: '6' :: post)⟩ =
          ⟨pre ++ (padNum 4 2025 ++ post)⟩) ∧
      (∀ pre post : List Char,
        (∀ c ∈ pre, ¬ tokenStart c) → (∀ c ∈ post, ¬ tokenStart c) →
        goFormatStr ⟨2025, 10, 11, 12, 30, 45⟩ ⟨pre ++ ('1' :: '5' :: post)⟩ =
          ⟨pre ++ (padNum 2 12 ++ post)⟩) :=
  template_output_time_formatted _ _ .logs _ () ⟨2025, 10, 11, 12, 30, 45⟩ 7
    "x2006y" rfl rfl rfl (by decide)

/-! ## C2 — totality of the template lookup functions -/

theorem atIdx_ok {β : Type} (l : List β) (i : Int) (h1 : 0 ≤ i)
    (h2 : i.toNat < l.length) : atIdx l i = Except.ok l[i.toNat] := by
  simp [atIdx, h1, h2]

theorem exceptPure_eq_ok {ε β : Type} (a : β) :
    (pure a : Except ε β) = Except.ok a := rfl

theorem exceptBind_ok {ε β γ : Type} (a : β) (f : β → Except ε γ) :
    (Except.ok a >>= f : Except ε γ) = f a := rfl

theorem exceptMap_ok {ε β γ : Type} (f : β → γ) (a : β) :
    (f <$> Except.ok a : Except ε γ) = Except.ok (f a) := rfl

/-- C2 counterexample: on a batch with exactly one resource group, the
resource-attribute lookup at index 1 fails (the guard checks only
`Len() > 0` before `At(1)`, which panics out of bounds) instead of
returning a sentinel. -/
theorem lookup_panics_out_of_bounds :
    getResourceSpanAttr ⟨[⟨⟨⟨[]⟩⟩, []⟩]⟩ 1 "service.name" =
      Except.error "index out of range" := by
  rfl

theorem getResourceSpanAttr_spec (td : Traces) (i : Int) (key : String) :
    (td.resourceSpans = [] → getResourceSpanAttr td i key = Except.ok none) ∧
    ∀ (h1 : 0 ≤ i) (h2 : i.toNat < td.resourceSpans.length),
      getResourceSpanAttr td i key =
        Except.ok (getAttrStandalone td.resourceSpans[i.toNat].resource.attributes key) := by
  constructor
  · intro h
    simp [getResourceSpanAttr, h, exceptPure_eq_ok, exceptBind_ok, exceptMap_ok]
  · intro h1 h2
    have hlen : 0 < td.resourceSpans.length := by omega
    simp [getResourceSpanAttr, hlen, atIdx_ok _ _ h1 h2, exceptPure_eq_ok, exceptBind_ok, exceptMap_ok]

theorem getResourceMetricAttr_spec (md : Metrics) (i : Int) (key : String) :
    (md.resourceMetrics = [] → getResourceMetricAttr md i key = Except.ok none) ∧
    ∀ (h1 : 0 ≤ i) (h2 : i.toNat < md.resourceMetrics.length),
      getResourceMetricAttr md i key =
        Except.ok (getAttrStandalone md.resourceMetrics[i.toNat].resource.attributes key) := by
  constructor
  · intro h
    simp [getResourceMetricAttr, h, exceptPure_eq_ok, exceptBind_ok, exceptMap_ok]
  · intro h1 h2
    have hlen : 0 < md.resourceMetrics.length := by omega
    simp [getResourceMetricAttr, hlen, atIdx_ok _ _ h1 h2, exceptPure_eq_ok, exceptBind_ok, exceptMap_ok]

theorem getResourceLogAttr_spec (ld : Logs) (i : Int) (key : String) :
    (ld.resourceLogs = [] → getResourceLogAttr ld i key = Except.ok none) ∧
    ∀ (h1 : 0 ≤ i) (h2 : i.toNat < ld.resourceLogs.length),
      getResourceLogAttr ld i key =
        Except.ok (getAttrStandalone ld.resourceLogs[i.toNat].resource.attributes key) := by
  constructor
  · intro h
    simp [getResourceLogAttr, h, exceptPure_eq_ok, exceptBind_ok, exceptMap_ok]
  · intro h1 h2
    have hlen : 0 < ld.resourceLogs.length := by omega
    simp [getResourceLogAttr, hlen, atIdx_ok _ _ h1 h2, exceptPure_eq_ok, exceptBind_ok, exceptMap_ok]

theorem getScopeSpanAttr_spec (td : Traces) (i j : Int) (key : String) :
    (td.resourceSpans = [] → getScopeSpanAttr td i j key = Except.ok none) ∧
    ∀ (h1 : 0 ≤ i) (h2 : i.toNat < td.resourceSpans.length),
      (td.resourceSpans[i.toNat].scopeSpans = [] →
        getScopeSpanAttr td i j key = Except.ok none) ∧
      ∀ (h3 : 0 ≤ j) (h4 : j.toNat < td.resourceSpans[i.toNat].scopeSpans.length),
        getScopeSpanAttr td i j key =
          Except.ok (getAttrStandalone
            td.resourceSpans[i.toNat].scopeSpans[j.toNat].scope.attributes key) := by
  constructor
  · intro h
    simp [getScopeSpanAttr, h, exceptPure_eq_ok, exceptBind_ok, exceptMap_ok]
  · intro h1 h2
    have hlen : 0 < td.resourceSpans.length := by omega
    constructor
    · intro h
      simp [getScopeSpanAttr, hlen, atIdx_ok _ _ h1 h2, h, exceptPure_eq_ok, exceptBind_ok, exceptMap_ok]
    · intro h3 h4
      have hlen2 : 0 < td.resourceSpans[i.toNat].scopeSpans.length := by omega
      simp [getScopeSpanAttr, hlen, atIdx_ok _ _ h1 h2, hlen2, atIdx_ok _ _ h3 h4, exceptPure_eq_ok, exceptBind_ok, exceptMap_ok]

theorem getScopeMetricAttr_spec (md : Metrics) (i j : Int) (key : String) :
    (md.resourceMetrics = [] → getScopeMetricAttr md i j key = Except.ok none) ∧
    ∀ (h1 : 0 ≤ i) (h2 : i.toNat < md.resourceMetrics.length),
      (md.resourceMetrics[i.toNat].scopeMetrics = [] →
        getScopeMetricAttr md i j key = Except.ok none) ∧
      ∀ (h3 : 0 ≤ j) (h4 : j.toNat < md.resourceMetrics[i.toNat].scopeMetrics.length),
        getScopeMetricAttr md i j key =
          Except.ok (getAttrStandalone
            md.resourceMetrics[i.toNat].scopeMetrics[j.toNat].scope.attributes key) := by
  constructor
  · intro h
    simp [getScopeMetricAttr, h, exceptPure_eq_ok, exceptBind_ok, exceptMap_ok]
  · intro h1 h2
    have hlen : 0 < md.resourceMetrics.length := by omega
    constructor
    · intro h
      simp [getScopeMetricAttr, hlen, atIdx_ok _ _ h1 h2, h, exceptPure_eq_ok, exceptBind_ok, exceptMap_ok]
    · intro h3 h4
      have hlen2 : 0 < md.resourceMetrics[i.toNat].scopeMetrics.length := by omega
      simp [getScopeMetricAttr, hlen, atIdx_ok _ _ h1 h2, hlen2, atIdx_ok _ _ h3 h4, exceptPure_eq_ok, exceptBind_ok, exceptMap_ok]

theorem getScopeLogAttr_spec (ld : Logs) (i j : Int) (key : String) :
    (ld.resourceLogs = [] → getScopeLogAttr ld i j key = Except.ok none) ∧
    ∀ (h1 : 0 ≤ i) (h2 : i.toNat < ld.resourceLogs.length),
      (ld.resourceLogs[i.toNat].scopeLogs = [] →
        getScopeLogAttr ld i j key = Except.ok none) ∧
      ∀ (h3 : 0 ≤ j) (h4 : j.toNat < ld.resourceLogs[i.toNat].scopeLogs.length),
        getScopeLogAttr ld i j key =
          Except.ok (getAttrStandalone
            ld.resourceLogs[i.toNat].scopeLogs[j.toNat].scope.attributes key) := by
  constructor
  · intro h
    simp [getScopeLogAttr, h, exceptPure_eq_ok, exceptBind_ok, exceptMap_ok]
  · intro h1 h2
    have hlen : 0 < ld.resourceLogs.length := by omega
    constructor
    · intro h
      simp [getScopeLogAttr, hlen, atIdx_ok _ _ h1 h2, h, exceptPure_eq_ok, exceptBind_ok, exceptMap_ok]
    · intro h3 h4
      have hlen2 : 0 < ld.resourceLogs[i.toNat].scopeLogs.length := by omega
      simp [getScopeLogAttr, hlen, atIdx_ok _ _ h1 h2, hlen2, atIdx_ok _ _ h3 h4, exceptPure_eq_ok, exceptBind_ok, exceptMap_ok]

theorem getSpan_spec (td : Traces) (i j k : Int) :
    (td.resourceSpans = [] → getSpan td i j k = Except.ok emptySpan) ∧
    ∀ (h1 : 0 ≤ i) (h2 : i.toNat < td.resourceSpans.length),
      (td.resourceSpans[i.toNat].scopeSpans = [] →
        getSpan td i j k = Except.ok emptySpan) ∧
      ∀ (h3 : 0 ≤ j) (h4 : j.toNat < td.resourceSpans[i.toNat].scopeSpans.length),
        (td.resourceSpans[i.toNat].scopeSpans[j.toNat].spans = [] →
          getSpan td i j k = Except.ok emptySpan) ∧
        ∀ (h5 : 0 ≤ k)
          (h6 : k.toNat < td.resourceSpans[i.toNat].scopeSpans[j.toNat].spans.length),
          getSpan td i j k =
            Except.ok td.resourceSpans[i.toNat].scopeSpans[j.toNat].spans[k.toNat] := by
  constructor
  · intro h
    simp [getSpan, h, exceptPure_eq_ok, exceptBind_ok, exceptMap_ok]
  · intro h1 h2
    have hlen : 0 < td.resourceSpans.length := by omega
    constructor
    · intro h
      simp [getSpan, hlen, atIdx_ok _ _ h1 h2, h, exceptPure_eq_ok, exceptBind_ok, exceptMap_ok]
    · intro h3 h4
      have hlen2 : 0 < td.resourceSpans[i.toNat].scopeSpans.length := by omega
      constructor
      · intro h
        simp [getSpan, hlen, atIdx_ok _ _ h1 h2, hlen2, atIdx_ok _ _ h3 h4, h, exceptPure_eq_ok, exceptBind_ok, exceptMap_ok]
      · intro h5 h6
        have hlen3 :
            0 < td.resourceSpans[i.toNat].scopeSpans[j.toNat].spans.length := by omega
        simp [getSpan, hlen, atIdx_ok _ _ h1 h2, hlen2, atIdx_ok _ _ h3 h4,
          hlen3, atIdx_ok _ _ h5 h6, exceptPure_eq_ok, exceptBind_ok, exceptMap_ok]

theorem getMetric_spec (md : Metrics) (i j k : Int) :
    (md.resourceMetrics = [] → getMetric md i j k = Except.ok emptyMetric) ∧
    ∀ (h1 : 0 ≤ i) (h2 : i.toNat < md.resourceMetrics.length),
      (md.resourceMetrics[i.toNat].scopeMetrics = [] →
        getMetric md i j k = Except.ok emptyMetric) ∧
      ∀ (h3 : 0 ≤ j) (h4 : j.toNat < md.resourceMetrics[i.toNat].scopeMetrics.length),
        (md.resourceMetrics[i.toNat].scopeMetrics[j.toNat].metrics = [] →
          getMetric md i j k = Except.ok emptyMetric) ∧
        ∀ (h5 : 0 ≤ k)
          (h6 : k.toNat < md.resourceMetrics[i.toNat].scopeMetrics[j.toNat].metrics.length),
          getMetric md i j k =
            Except.ok md.resourceMetrics[i.toNat].scopeMetrics[j.toNat].metrics[k.toNat] := by
  constructor
  · intro h
    simp [getMetric, h, exceptPure_eq_ok, exceptBind_ok, exceptMap_ok]
  · intro h1 h2
    have hlen : 0 < md.resourceMetrics.length := by omega
    constructor
    · intro h
      simp [getMetric, hlen, atIdx_ok _ _ h1 h2, h, exceptPure_eq_ok, exceptBind_ok, exceptMap_ok]
    · intro h3 h4
      have hlen2 : 0 < md.resourceMetrics[i.toNat].scopeMetrics.length := by omega
      constructor
      · intro h
        simp [getMetric, hlen, atIdx_ok _ _ h1 h2, hlen2, atIdx_ok _ _ h3 h4, h, exceptPure_eq_ok, exceptBind_ok, exceptMap_ok]
      · intro h5 h6
        have hlen3 :
            0 < md.resourceMetrics[i.toNat].scopeMetrics[j.toNat].metrics.length := by
          omega
        simp [getMetric, hlen, atIdx_ok _ _ h1 h2, hlen2, atIdx_ok _ _ h3 h4,
          hlen3, atIdx_ok _ _ h5 h6, exceptPure_eq_ok, exceptBind_ok, exceptMap_ok]

theorem getLogRecord_spec (ld : Logs) (i j k : Int) :
    (ld.resourceLogs = [] → getLogRecord ld i j k = Except.ok emptyLogRecord) ∧
    ∀ (h1 : 0 ≤ i) (h2 : i.toNat < ld.resourceLogs.length),
      (ld.resourceLogs[i.toNat].scopeLogs = [] →
        getLogRecord ld i j k = Except.ok emptyLogRecord) ∧
      ∀ (h3 : 0 ≤ j) (h4 : j.toNat < ld.resourceLogs[i.toNat].scopeLogs.length),
        (ld.resourceLogs[i.toNat].scopeLogs[j.toNat].logRecords = [] →
          getLogRecord ld i j k = Except.ok emptyLogRecord) ∧
        ∀ (h5 : 0 ≤ k)
          (h6 : k.toNat < ld.resourceLogs[i.toNat].scopeLogs[j.toNat].logRecords.length),
          getLogRecord ld i j k =
            Except.ok ld.resourceLogs[i.toNat].scopeLogs[j.toNat].logRecords[k.toNat] := by
  constructor
  · intro h
    simp [getLogRecord, h, exceptPure_eq_ok, exceptBind_ok, exceptMap_ok]
  · intro h1 h2
    have hlen : 0 < ld.resourceLogs.length := by omega
    constructor
    · intro h
      simp [getLogRecord, hlen, atIdx_ok _ _ h1 h2, h, exceptPure_eq_ok, exceptBind_ok, exceptMap_ok]
    · intro h3 h4
      have hlen2 : 0 < ld.resourceLogs[i.toNat].scopeLogs.length := by omega
      constructor
      · intro h
        simp [getLogRecord, hlen, atIdx_ok _ _ h1 h2, hlen2, atIdx_ok _ _ h3 h4, h, exceptPure_eq_ok, exceptBind_ok, exceptMap_ok]
      · intro h5 h6
        have hlen3 :
            0 < ld.resourceLogs[i.toNat].scopeLogs[j.toNat].logRecords.length := by
          omega
        simp [getLogRecord, hlen, atIdx_ok _ _ h1 h2, hlen2, atIdx_ok _ _ h3 h4,
          hlen3, atIdx_ok _ _ h5 h6, exceptPure_eq_ok, exceptBind_ok, exceptMap_ok]

/-- C2 (amended): each blob-name-template lookup function returns an
empty/sentinel value when the guarded collection is empty or a key is
missing, and returns without failing whenever every supplied index is
within bounds; but an index outside the bounds of a non-empty collection
makes the underlying `At` call panic, so the lookups are not total over all
indices. -/
theorem lookup_functions_guarded_totality :
    (∀ (td : Traces) (i : Int) (key : String),
      (td.resourceSpans = [] → getResourceSpanAttr td i key = Except.ok none) ∧
      ∀ (h1 : 0 ≤ i) (h2 : i.toNat < td.resourceSpans.length),
        getResourceSpanAttr td i key =
          Except.ok (getAttrStandalone td.resourceSpans[i.toNat].resource.attributes key)) ∧
    (∀ (md : Metrics) (i : Int) (key : String),
      (md.resourceMetrics = [] → getResourceMetricAttr md i key = Except.ok none) ∧
      ∀ (h1 : 0 ≤ i) (h2 : i.toNat < md.resourceMetrics.length),
        getResourceMetricAttr md i key =
          Except.ok (getAttrStandalone md.resourceMetrics[i.toNat].resource.attributes key)) ∧
    (∀ (ld : Logs) (i : Int) (key : String),
      (ld.resourceLogs = [] → getResourceLogAttr ld i key = Except.ok none) ∧
      ∀ (h1 : 0 ≤ i) (h2 : i.toNat < ld.resourceLogs.length),
        getResourceLogAttr ld i key =
          Except.ok (getAttrStandalone ld.resourceLogs[i.toNat].resource.attributes key)) ∧
    (∀ (td : Traces) (i j : Int) (key : String),
      (td.resourceSpans = [] → getScopeSpanAttr td i j key = Except.ok none) ∧
      ∀ (h1 : 0 ≤ i) (h2 : i.toNat < td.resourceSpans.length),
        (td.resourceSpans[i.toNat].scopeSpans = [] →
          getScopeSpanAttr td i j key = Except.ok none) ∧
        ∀ (h3 : 0 ≤ j) (h4 : j.toNat < td.resourceSpans[i.toNat].scopeSpans.length),
          getScopeSpanAttr td i j key =
            Except.ok (getAttrStandalone
              td.resourceSpans[i.toNat].scopeSpans[j.toNat].scope.attributes key)) ∧
    (∀ (md : Metrics) (i j : Int) (key : String),
      (md.resourceMetrics = [] → getScopeMetricAttr md i j key = Except.ok none) ∧
      ∀ (h1 : 0 ≤ i) (h2 : i.toNat < md.resourceMetrics.length),
        (md.resourceMetrics[i.toNat].scopeMetrics = [] →
          getScopeMetricAttr md i j key = Except.ok none) ∧
        ∀ (h3 : 0 ≤ j) (h4 : j.toNat < md.resourceMetrics[i.toNat].scopeMetrics.length),
          getScopeMetricAttr md i j key =
            Except.ok (getAttrStandalone
              md.resourceMetrics[i.toNat].scopeMetrics[j.toNat].scope.attributes key)) ∧
    (∀ (ld : Logs) (i j : Int) (key : String),
      (ld.resourceLogs = [] → getScopeLogAttr ld i j key = Except.ok none) ∧
      ∀ (h1 : 0 ≤ i) (h2 : i.toNat < ld.resourceLogs.length),
        (ld.resourceLogs[i.toNat].scopeLogs = [] →
          getScopeLogAttr ld i j key = Except.ok none) ∧
        ∀ (h3 : 0 ≤ j) (h4 : j.toNat < ld.resourceLogs[i.toNat].scopeLogs.length),
          getScopeLogAttr ld i j key =
            Except.ok (getAttrStandalone
              ld.resourceLogs[i.toNat].scopeLogs[j.toNat].scope.attributes key)) ∧
    (∀ (td : Traces) (i j k : Int),
      (td.resourceSpans = [] → getSpan td i j k = Except.ok emptySpan) ∧
      ∀ (h1 : 0 ≤ i) (h2 : i.toNat < td.resourceSpans.length),
        (td.resourceSpans[i.toNat].scopeSpans = [] →
          getSpan td i j k = Except.ok emptySpan) ∧
        ∀ (h3 : 0 ≤ j) (h4 : j.toNat < td.resourceSpans[i.toNat].scopeSpans.length),
          (td.resourceSpans[i.toNat].scopeSpans[j.toNat].spans = [] →
            getSpan td i j k = Except.ok emptySpan) ∧
          ∀ (h5 : 0 ≤ k)
            (h6 : k.toNat < td.resourceSpans[i.toNat].scopeSpans[j.toNat].spans.length),
            getSpan td i j k =
              Except.ok td.resourceSpans[i.toNat].scopeSpans[j.toNat].spans[k.toNat]) ∧
    (∀ (md : Metrics) (i j k : Int),
      (md.resourceMetrics = [] → getMetric md i j k = Except.ok emptyMetric) ∧
      ∀ (h1 : 0 ≤ i) (h2 : i.toNat < md.resourceMetrics.length),
        (md.resourceMetrics[i.toNat].scopeMetrics = [] →
          getMetric md i j k = Except.ok emptyMetric) ∧
        ∀ (h3 : 0 ≤ j) (h4 : j.toNat < md.resourceMetrics[i.toNat].scopeMetrics.length),
          (md.resourceMetrics[i.toNat].scopeMetrics[j.toNat].metrics = [] →
            getMetric md i j k = Except.ok emptyMetric) ∧
          ∀ (h5 : 0 ≤ k)
            (h6 : k.toNat < md.resourceMetrics[i.toNat].scopeMetrics[j.toNat].metrics.length),
            getMetric md i j k =
              Except.ok md.resourceMetrics[i.toNat].scopeMetrics[j.toNat].metrics[k.toNat]) ∧
    (∀ (ld : Logs) (i j k : Int),
      (ld.resourceLogs = [] → getLogRecord ld i j k = Except.ok emptyLogRecord) ∧
      ∀ (h1 : 0 ≤ i) (h2 : i.toNat < ld.resourceLogs.length),
        (ld.resourceLogs[i.toNat].scopeLogs = [] →
          getLogRecord ld i j k = Except.ok emptyLogRecord) ∧
        ∀ (h3 : 0 ≤ j) (h4 : j.toNat < ld.resourceLogs[i.toNat].scopeLogs.length),
          (ld.resourceLogs[i.toNat].scopeLogs[j.toNat].logRecords = [] →
            getLogRecord ld i j k = Except.ok emptyLogRecord) ∧
          ∀ (h5 : 0 ≤ k)
            (h6 : k.toNat < ld.resourceLogs[i.toNat].scopeLogs[j.toNat].logRecords.length),
            getLogRecord ld i j k =
              Except.ok ld.resourceLogs[i.toNat].scopeLogs[j.toNat].logRecords[k.toNat]) :=
  ⟨getResourceSpanAttr_spec, getResourceMetricAttr_spec, getResourceLogAttr_spec,
    getScopeSpanAttr_spec, getScopeMetricAttr_spec, getScopeLogAttr_spec,
    getSpan_spec, getMetric_spec, getLogRecord_spec⟩

/-- Witness for the amended C2 theorem: a lookup on an empty batch returns
the sentinel, and an in-bounds lookup succeeds with the stored value. -/
theorem lookup_functions_guarded_totality_witness :
    getResourceSpanAttr ⟨[]⟩ 5 "k" = Except.ok none ∧
    getResourceSpanAttr ⟨[⟨⟨⟨[("k", .str "v")]⟩⟩, []⟩]⟩ 0 "k" =
      Except.ok (some (.str "v")) :=
  ⟨(lookup_functions_guarded_totality.1 ⟨[]⟩ 5 "k").1 rfl,
    (lookup_functions_guarded_totality.1 ⟨[⟨⟨⟨[("k", .str "v")]⟩⟩, []⟩]⟩ 0 "k").2
      (by decide) (by decide)⟩

end AzureBlob
